import Mathlib

/-!
Shallow embedding of `src/youcube/yc_download.py` (the YouCube media
acquisition and conversion pipeline).

External collaborators — the yt-dlp extraction library, the Spotify URL
processor, the on-disk artifact cache predicates, the two encoder
subprocesses, the websocket event sink and the logger — are modelled as
inputs collected in an `Env` record.  The observable behaviour of the
pipeline is a trace of `Effect`s (events sent to the sink, log lines,
cache probes, the fetch, encoder invocations) together with the value the
`download` function returns to its caller.

Helper functions imported from `yc_utils` are not under `src/`; each such
definition carries a doc comment starting with `Modelled from the spec:`.
-/

/-- Flat metadata fields that `download` reads from a yt-dlp info
dictionary (or from one element of a playlist's `entries`).  The Python
code reads them with `data.get(...)`; absent numeric/title keys are
`none`. -/
structure OutcomeCore where
  id : String
  title : Option String
  like_count : Option Int
  view_count : Option Int
  is_live : Bool
  extractor : String
  webpage_url_domain : String
  deriving Repr, DecidableEq

/-- A yt-dlp extraction result as `download` sees it: the top-level
dictionary's flat fields, whether `_type == "playlist"`, and the
`entries` sequence (each entry again a flat dictionary). -/
structure ExtractData where
  core : OutcomeCore
  is_playlist : Bool
  entries : List OutcomeCore
  deriving Repr, DecidableEq

/-- Result of `spotify_url_processor.auto(url)`: a single resolved search
string, or a list of references (first element becomes the primary item,
the rest the continuation queue).  `none` models both an absent processor
and a falsy (`None`) result — the two branches behave identically. -/
inductive SpotifyRes where
  | single (s : String)
  | multi (l : List String)
  deriving Repr, DecidableEq

/-- One observable step of the pipeline: an event handed to the websocket
sink, a logger line, a cache-presence probe, the raw-media fetch, or an
encoder-subprocess invocation (argv recorded). -/
inductive Effect where
  | sendStatus (msg : String)
  | sendError (msg : String)
  | logDebug (msg : String)
  | logWarn (msg : String)
  | createDataFolder
  | cacheCheckAudio (media_id : String)
  | cacheCheckVideo (media_id : String) (width height : Option Int)
  | fetch
  | runEncoder (argv : List String)
  deriving Repr, DecidableEq

def Effect.isSendError : Effect → Bool
  | .sendError _ => true
  | _ => false

def Effect.isRunEncoder : Effect → Bool
  | .runEncoder _ => true
  | _ => false

def Effect.isFetch : Effect → Bool
  | .fetch => true
  | _ => false

/-- The returned media dictionary (`{"action": "media", ...}`) or error
dictionary (`{"action": "error", "message": msg}`).  `playlist_videos` is
present only when the continuation queue is truthy (non-empty). -/
inductive OutDict where
  | media (id : String) (title : Option String) (like_count view_count : Option Int)
      (playlist_videos : Option (List String))
  | err (msg : String)
  deriving Repr, DecidableEq

/-- Return value of `download`: the output dictionary together with the
artifact filename list, or an uncaught Python exception (`crash`). -/
inductive DlRet where
  | ret (out : OutDict) (files : List String)
  | crash
  deriving Repr, DecidableEq

/-- Everything the pipeline receives from the outside world: the
configuration surface and the responses of each collaborator.  Collaborator
calls are pure in the model (the same probe always answers the same). -/
structure Env where
  maxWidth : Int
  maxHeight : Int
  spotifyResult : Option SpotifyRes
  extractResult : Except Unit ExtractData
  metaRecovery : String → Except Unit OutcomeCore
  audioCached : String → Bool
  videoCached : String → Option Int → Option Int → Bool
  fetchResult : Except Unit Unit
  progressMsgs : List String
  audioLines : List String
  videoLines : List String
  audioCode : Int
  videoCode : Int
  rawFile : String
  tempDir : String
  dataFolder : String
  ffmpegPath : String
  sanjuuniPath : String
  disableOpenCL : Bool
  noColor : Bool
  colYellow : String
  colGreen : String
  colReset : String

/-- Modelled from the spec: `yc_utils.cap_width_and_height` is not under
`src/`; the spec says dimensions "are clamped to configured maximums". -/
def cap_width_and_height (maxW maxH w h : Int) : Int × Int :=
  (min w maxW, min h maxH)

/-- Modelled from the spec: `yc_utils.get_audio_name` is not under `src/`;
the spec fixes the convention `<media_id>.<audio_ext>` with the fixed
pulse-width audio extension (the code converts "audio to dfpwm"). -/
def get_audio_name (media_id : String) : String :=
  media_id ++ ".dfpwm"

/-- Modelled from the spec: `yc_utils.get_video_name` is not under `src/`;
the spec fixes the convention `<media_id>_<width>x<height>.<video_ext>`
with the fixed raw-frame extension (the code converts "video to 32vid"). -/
def get_video_name (media_id : String) (width height : Int) : String :=
  media_id ++ "_" ++ toString width ++ "x" ++ toString height ++ ".32vid"

/-- Python truthiness of an optional integer: `None` and `0` are falsy. -/
def truthyDim : Option Int → Bool
  | none => false
  | some n => n != 0

/-- The dimension pair actually used downstream of line 217: `if width and
height:` clamps only when both dimensions are truthy (non-`None` and
non-zero); otherwise both pass through unchanged. -/
def effDims (env : Env) (width height : Option Int) : Option Int × Option Int :=
  if truthyDim width && truthyDim height then
    let c := cap_width_and_height env.maxWidth env.maxHeight (width.getD 0) (height.getD 0)
    (some c.1, some c.2)
  else (width, height)

/-- Initial `playlist_videos` produced by the Spotify-resolution block
(lines 234-242): a truthy list result keeps its tail as the queue (its
head is consumed as the primary reference); a single-track result or an
absent/falsy result leaves the queue empty.  The inner
`spotify_url_processor.auto(processed[0])` call only rebinds `url`, which
feeds the extraction collaborator and is therefore abstracted. -/
def resolveSpotify : Option SpotifyRes → List String
  | some (.multi l) => l.drop 1
  | _ => []

-- User-agent constants of the three client profiles (lines 125-127).
def ANDROID_UA : String :=
  "com.google.android.youtube/19.20.34 (Linux; U; Android 13)"

def WEB_EMBED_UA : String :=
  "Mozilla/5.0 (X11; Linux x86_64) AppleWebKit/537.36 Chrome/118 Safari/537.36"

def MUSIC_UA : String :=
  "com.google.android.apps.youtube.music/6.26.52"

/-- The `base_format` selector from `build_client_profiles`, chosen by
`is_video`. -/
def base_format (is_video : Bool) : String :=
  if is_video then
    "bv*[ext=mp4][height<=360]+ba[ext=m4a]/bv*+ba/bestvideo+bestaudio/bestaudio/best"
  else "ba[ext=m4a]/bestaudio"

/-- One yt-dlp option dictionary; the fields that differ between profiles
or depend on the request.  The remaining keys of each dictionary in the
source (`restrictfilenames`, `default_search`, `extract_flat`,
`progress_hooks`, `logger`, `youtube_include_dash_manifest`,
`geo_bypass`) are identical constants or runtime objects and are
omitted. -/
structure ClientProfile where
  user_agent : String
  format : String
  outtmpl : String
  deriving Repr, DecidableEq

/-- `build_client_profiles` (lines 130-182): the fixed ordered list —
Android client, web-embedded fallback, YouTube-Music fallback — all
sharing the same `base_format` and output template. -/
def build_client_profiles (is_video : Bool) (temp_dir : String) : List ClientProfile :=
  [⟨ANDROID_UA, base_format is_video, temp_dir ++ "/%(id)s.%(ext)s"⟩,
   ⟨WEB_EMBED_UA, base_format is_video, temp_dir ++ "/%(id)s.%(ext)s"⟩,
   ⟨MUSIC_UA, base_format is_video, temp_dir ++ "/%(id)s.%(ext)s"⟩]

/-- Loop body of `try_extract_with_profiles`: walk the profile list with
the current `last_error` accumulator (Python starts it at `None`). -/
def tryExtractGo {P E A : Type} (f : P → Except E A) :
    List P → Option E → Except (Option E) A
  | [], last => Except.error last
  | p :: ps, _ =>
      match f p with
      | .ok v => Except.ok v
      | .error e => tryExtractGo f ps (some e)

/-- `try_extract_with_profiles` (lines 185-198): try each profile in
order, return immediately on the first success; if every profile fails,
re-raise the last recorded error (`raise last_error`).  `f` abstracts the
`YoutubeDL(profile).extract_info(url, download=False)` collaborator
call — both the constructor and the extraction may raise. -/
def try_extract_with_profiles {P E A : Type} (f : P → Except E A)
    (profiles : List P) : Except (Option E) A :=
  tryExtractGo f profiles none

/-- Generic-extractor id rewrite (lines 268-269): when the winning
outcome's extractor is `"generic"`, `data["id"]` becomes
`"g" + data["webpage_url_domain"] + data["id"]`. -/
def applyGeneric (d : ExtractData) : ExtractData :=
  if d.core.extractor == "generic" then
    ⟨⟨"g" ++ d.core.webpage_url_domain ++ d.core.id, d.core.title, d.core.like_count,
      d.core.view_count, d.core.is_live, d.core.extractor, d.core.webpage_url_domain⟩,
     d.is_playlist, d.entries⟩
  else d

/-- Playlist handling (lines 272-276): every entry id is appended to
`playlist_videos`, then the first element of the combined list is dropped
and the first entry becomes the working data.  An empty `entries` list
makes `data["entries"][0]` raise, modelled as `none` (a crash). -/
def applyPlaylist (d : ExtractData) (pv : List String) :
    Option (OutcomeCore × List String) :=
  if d.is_playlist then
    match d.entries with
    | [] => none
    | e :: es => some (e, (pv ++ (e :: es).map OutcomeCore.id).drop 1)
  else some (d.core, pv)

/-- Missing-metadata recovery (lines 279-285): for a `"youtube"` outcome
with a missing view or like count, re-run a metadata-only extraction by
id; on failure keep the partial data. -/
def applyRecovery (env : Env) (d : OutcomeCore) : OutcomeCore :=
  if d.extractor == "youtube" && (d.view_count.isNone || d.like_count.isNone) then
    match env.metaRecovery d.id with
    | .ok d2 => d2
    | .error _ => d
  else d

/-- The fetch condition of line 300: `not audio_exists or (is_video and
not video_exists)`. -/
def need_fetch (env : Env) (is_video : Bool) (width height : Option Int)
    (media_id : String) : Bool :=
  !env.audioCached media_id || (is_video && !env.videoCached media_id width height)

/-- Colour-or-plain tag prepended to every ffmpeg output line in the log
(line 96).  The colour strings come from `yc_colours`, which is not under
`src/`, so they live in `Env`. -/
def audioTag (env : Env) : String :=
  if env.noColor then "[FFmpeg]" else env.colGreen ++ "[FFmpeg]" ++ env.colReset ++ " "

/-- Colour-or-plain tag prepended to every sanjuuni output line in the log
(line 60). -/
def videoTag (env : Env) : String :=
  if env.noColor then "[Sanjuuni]" else env.colYellow ++ "[Sanjuuni]" ++ env.colReset ++ " "

/-- Argument vector of the ffmpeg invocation (lines 101-112). -/
def ffmpegArgs (env : Env) (media_id : String) : List String :=
  [env.ffmpegPath, "-i", env.tempDir ++ "/" ++ env.rawFile,
   "-f", "dfpwm", "-ar", "48000", "-ac", "1",
   env.dataFolder ++ "/" ++ get_audio_name media_id]

/-- Argument vector of the sanjuuni invocation (lines 66-79). -/
def sanjuuniArgs (env : Env) (media_id : String) (width height : Int) : List String :=
  [env.sanjuuniPath, "--width=" ++ toString width, "--height=" ++ toString height,
   "-i", env.tempDir ++ "/" ++ env.rawFile, "--raw",
   "-o", env.dataFolder ++ "/" ++ get_video_name media_id width height,
   if env.disableOpenCL then "--disable-opencl" else ""]

/-- Effect trace of `download_audio` (lines 89-119): announce the
conversion, spawn ffmpeg, log each combined-output line with the ffmpeg
tag (the handler does not forward lines to the sink), and send an error
event when the exit code is non-zero. -/
def download_audio (env : Env) (media_id : String) : List Effect :=
  [Effect.sendStatus ("Converting audio to dfpwm ..."),
   Effect.runEncoder (ffmpegArgs env media_id)]
  ++ env.audioLines.map (fun l => Effect.logDebug (audioTag env ++ l))
  ++ (if env.audioCode != 0 then
        [Effect.logWarn ("FFmpeg exited with " ++ toString env.audioCode),
         Effect.sendError ("Failed to convert audio!")]
      else [])

/-- Effect trace of `download_video` (lines 53-86): announce the
conversion, spawn sanjuuni, per combined-output line log the tagged line
and forward the bare line as a status event, and send an error event when
the exit code is non-zero. -/
def download_video (env : Env) (media_id : String) (width height : Int) : List Effect :=
  [Effect.sendStatus ("Converting video to 32vid ..."),
   Effect.runEncoder (sanjuuniArgs env media_id width height)]
  ++ env.videoLines.flatMap
      (fun l => [Effect.logDebug (videoTag env ++ l), Effect.sendStatus l])
  ++ (if env.videoCode != 0 then
        [Effect.logWarn ("Sanjuuni exited with " ++ toString env.videoCode),
         Effect.sendError ("Failed to convert video!")]
      else [])

/-- Conversion jobs and result assembly (lines 316-340): run the audio job
when the audio artifact is missing, the video job when video is requested
and its artifact missing; return the media dictionary (queue included only
when truthy) and the full expected filename list. -/
def convert_and_assemble (env : Env) (is_video : Bool) (width height : Option Int)
    (d : OutcomeCore) (pv : List String) : List Effect × DlRet :=
  let media_id := d.id
  let evA := if !env.audioCached media_id then download_audio env media_id else []
  let evV := if is_video && !env.videoCached media_id width height then
               download_video env media_id (width.getD 0) (height.getD 0)
             else []
  (evA ++ evV,
   DlRet.ret
     (OutDict.media media_id d.title d.like_count d.view_count
       (if pv.isEmpty then none else some pv))
     ([get_audio_name media_id]
       ++ (if is_video then [get_video_name media_id (width.getD 0) (height.getD 0)] else [])))

/-- The tail of `download` from the livestream check on (lines 289-340):
a live outcome returns the error dictionary at once (no event, no cache
probe); otherwise the data folder is ensured, both cache predicates are
probed, a single fetch runs when `need_fetch` holds (emitting the
download announcement and the collaborator's progress lines, and failing
fatally on a fetch error), and the conversions and assembly follow. -/
def download_tail (env : Env) (is_video : Bool) (width height : Option Int)
    (d : OutcomeCore) (pv : List String) : List Effect × DlRet :=
  if d.is_live then
    ([], DlRet.ret (OutDict.err ("Livestreams are not supported")) [])
  else
    let media_id := d.id
    let pre := [Effect.createDataFolder, Effect.cacheCheckAudio media_id,
                Effect.cacheCheckVideo media_id width height]
    if need_fetch env is_video width height media_id then
      let evF := [Effect.sendStatus ("Downloading resource ..."), Effect.fetch]
                  ++ env.progressMsgs.map Effect.sendStatus
      match env.fetchResult with
      | .error _ =>
          (pre ++ evF ++ [Effect.sendError ("Failed to download media")],
           DlRet.ret (OutDict.err ("Download failure")) [])
      | .ok _ =>
          let t := convert_and_assemble env is_video width height d pv
          (pre ++ evF ++ t.1, t.2)
    else
      let t := convert_and_assemble env is_video width height d pv
      (pre ++ t.1, t.2)

/-- `download` (lines 205-340).  `is_video` is decided by `is not None` on
the raw dimensions; clamping then uses truthiness (`effDims`).  The
resolved URL only feeds the extraction collaborator, whose outcome is
`env.extractResult`, so the url argument is otherwise unused. -/
def download (env : Env) (_url : String) (width0 height0 : Option Int) :
    List Effect × DlRet :=
  let is_video := width0.isSome && height0.isSome
  let dims := effDims env width0 height0
  let pv0 := resolveSpotify env.spotifyResult
  let ev0 := [Effect.sendStatus ("Getting resource information ...")]
  match env.extractResult with
  | .error _ =>
      (ev0 ++ [Effect.sendError ("Failed to extract media info")],
       DlRet.ret (OutDict.err ("Extractor failed")) [])
  | .ok d0 =>
      match applyPlaylist (applyGeneric d0) pv0 with
      | none => (ev0, DlRet.crash)
      | some dp =>
          let d3 := applyRecovery env dp.1
          let t := download_tail env is_video dims.1 dims.2 d3 dp.2
          (ev0 ++ t.1, t.2)

/-- Trace component of a `download` run. -/
def traceOf (env : Env) (u : String) (width0 height0 : Option Int) : List Effect :=
  (download env u width0 height0).1

/-- Return component of a `download` run. -/
def retOf (env : Env) (u : String) (width0 height0 : Option Int) : DlRet :=
  (download env u width0 height0).2

/-- An effect that touches the artifact cache, the network fetch, the
data folder or an encoder subprocess — everything the livestream
short-circuit must prevent. -/
def touchesPipeline : Effect → Bool
  | .createDataFolder => true
  | .cacheCheckAudio _ => true
  | .cacheCheckVideo _ _ _ => true
  | .fetch => true
  | .runEncoder _ => true
  | _ => false

-- Shared characterization lemmas for the pipeline tail.

lemma download_tail_live (env : Env) (iv : Bool) (w h : Option Int)
    (d : OutcomeCore) (pv : List String) (hl : d.is_live = true) :
    download_tail env iv w h d pv =
      ([], DlRet.ret (OutDict.err ("Livestreams are not supported")) []) := by
  simp [download_tail, hl]

lemma download_tail_fetch_fail (env : Env) (iv : Bool) (w h : Option Int)
    (d : OutcomeCore) (pv : List String) (hnl : d.is_live = false)
    (hfetch : env.fetchResult = Except.error ())
    (hnf : need_fetch env iv w h d.id = true) :
    download_tail env iv w h d pv =
      ([Effect.createDataFolder, Effect.cacheCheckAudio d.id,
        Effect.cacheCheckVideo d.id w h,
        Effect.sendStatus ("Downloading resource ..."), Effect.fetch]
        ++ env.progressMsgs.map Effect.sendStatus
        ++ [Effect.sendError ("Failed to download media")],
       DlRet.ret (OutDict.err ("Download failure")) []) := by
  simp [download_tail, hnl, hnf, hfetch]

lemma download_tail_ok (env : Env) (iv : Bool) (w h : Option Int)
    (d : OutcomeCore) (pv : List String) (hnl : d.is_live = false)
    (hfetch : env.fetchResult = Except.ok ()) :
    download_tail env iv w h d pv =
      ([Effect.createDataFolder, Effect.cacheCheckAudio d.id,
        Effect.cacheCheckVideo d.id w h]
        ++ (if need_fetch env iv w h d.id then
              [Effect.sendStatus ("Downloading resource ..."), Effect.fetch]
                ++ env.progressMsgs.map Effect.sendStatus
            else [])
        ++ (if !env.audioCached d.id then download_audio env d.id else [])
        ++ (if iv && !env.videoCached d.id w h then
              download_video env d.id (w.getD 0) (h.getD 0)
            else []),
       DlRet.ret
         (OutDict.media d.id d.title d.like_count d.view_count
           (if pv.isEmpty then none else some pv))
         ([get_audio_name d.id]
           ++ (if iv then [get_video_name d.id (w.getD 0) (h.getD 0)] else []))) := by
  cases hnf : need_fetch env iv w h d.id with
  | false => simp [download_tail, hnl, hnf, convert_and_assemble, List.append_assoc]
  | true => simp [download_tail, hnl, hnf, hfetch, convert_and_assemble, List.append_assoc]

lemma download_run (env : Env) (u : String) (width0 height0 : Option Int)
    (d0 : ExtractData) (d2 : OutcomeCore) (pv : List String)
    (hx : env.extractResult = Except.ok d0)
    (hpl : applyPlaylist (applyGeneric d0) (resolveSpotify env.spotifyResult) = some (d2, pv)) :
    download env u width0 height0 =
      (Effect.sendStatus ("Getting resource information ...") ::
         (download_tail env (width0.isSome && height0.isSome)
           (effDims env width0 height0).1 (effDims env width0 height0).2
           (applyRecovery env d2) pv).1,
       (download_tail env (width0.isSome && height0.isSome)
           (effDims env width0 height0).1 (effDims env width0 height0).2
           (applyRecovery env d2) pv).2) := by
  simp [download, hx, hpl]

lemma download_extract_fail (env : Env) (u : String) (width0 height0 : Option Int)
    (hx : env.extractResult = Except.error ()) :
    download env u width0 height0 =
      ([Effect.sendStatus ("Getting resource information ..."),
        Effect.sendError ("Failed to extract media info")],
       DlRet.ret (OutDict.err ("Extractor failed")) []) := by
  simp [download, hx]

lemma filter_sendError_map_status (msgs : List String) :
    (msgs.map Effect.sendStatus).filter Effect.isSendError = [] := by
  induction msgs with
  | nil => rfl
  | cons m ms ih => simp [Effect.isSendError, ih]

lemma tryExtractGo_first_success {P E A : Type} (f : P → Except E A) :
    ∀ (pre : List P) (p : P) (rest : List P) (v : A),
      (∀ q ∈ pre, ∃ e, f q = Except.error e) → f p = Except.ok v →
      ∀ last, tryExtractGo f (pre ++ p :: rest) last = Except.ok v := by
  intro pre
  induction pre with
  | nil =>
      intro p rest v _ hp last
      simp [tryExtractGo, hp]
  | cons q qs ih =>
      intro p rest v hpre hp last
      obtain ⟨e, he⟩ := hpre q (List.mem_cons_self q qs)
      simp only [List.cons_append, tryExtractGo, he]
      exact ih p rest v (fun r hr => hpre r (List.mem_cons_of_mem q hr)) hp (some e)

lemma tryExtractGo_all_fail {P E A : Type} (f : P → Except E A) :
    ∀ (l : List P) (q : P) (e : E),
      (∀ r ∈ l, ∃ e2, f r = Except.error e2) →
      l.getLast? = some q → f q = Except.error e →
      ∀ last, tryExtractGo f l last = Except.error (some e) := by
  intro l
  induction l with
  | nil =>
      intro q e _ hlast
      simp at hlast
  | cons p ps ih =>
      intro q e hall hlast hq last
      obtain ⟨e2, he2⟩ := hall p (List.mem_cons_self p ps)
      simp only [tryExtractGo, he2]
      cases ps with
      | nil =>
          simp at hlast
          subst hlast
          rw [hq] at he2
          injection he2 with h12
          subst h12
          rfl
      | cons r rs =>
          rw [List.getLast?_cons_cons] at hlast
          exact ih q e (fun x hx => hall x (List.mem_cons_of_mem p hx)) hlast hq (some e2)

/-- C1: `try_extract_with_profiles` attempts the profiles strictly in
their declared order and returns immediately with the first profile that
succeeds; when all N profiles fail, the error it raises is the failure
produced by the Nth (last) profile attempted, not the first. -/
theorem C1_fallback_order {P E A : Type} (f : P → Except E A) (profiles : List P) :
    (∀ (pre : List P) (p : P) (rest : List P) (v : A),
        profiles = pre ++ p :: rest →
        (∀ q ∈ pre, ∃ e, f q = Except.error e) →
        f p = Except.ok v →
        try_extract_with_profiles f profiles = Except.ok v)
    ∧ (∀ (q : P) (e : E),
        (∀ r ∈ profiles, ∃ e2, f r = Except.error e2) →
        profiles.getLast? = some q →
        f q = Except.error e →
        try_extract_with_profiles f profiles = Except.error (some e)) := by
  constructor
  · intro pre p rest v hsplit hpre hp
    rw [hsplit]
    unfold try_extract_with_profiles
    exact tryExtractGo_first_success f pre p rest v hpre hp none
  · intro q e hall hlast hq
    unfold try_extract_with_profiles
    exact tryExtractGo_all_fail f profiles q e hall hlast hq none

/-- A concrete extraction collaborator: profile 2 succeeds, the others
fail with themselves as the error. -/
def wOk : Nat → Except Nat Nat :=
  fun n => if n == 2 then Except.ok 7 else Except.error n

/-- A concrete extraction collaborator where every profile fails. -/
def wFail : Nat → Except Nat Nat := fun n => Except.error n

/-- Witness for C1 at concrete profile lists. -/
theorem C1_fallback_order_witness :
    try_extract_with_profiles wOk [0, 1, 2, 3] = Except.ok 7
    ∧ try_extract_with_profiles wFail [0, 1, 3] = Except.error (some 3) := by
  constructor
  · exact (C1_fallback_order wOk [0, 1, 2, 3]).1 [0, 1] 2 [3] 7 rfl
      (by intro q hq; exact ⟨q, by fin_cases hq <;> rfl⟩) rfl
  · exact (C1_fallback_order wFail [0, 1, 3]).2 3 3 (fun r _ => ⟨r, rfl⟩) rfl rfl

/-- Builder for concrete environments used by witnesses: configured
maximums 640x360, cache predicates and conversion collaborators constant,
metadata recovery always failing (which keeps the partial data). -/
def mkEnv (spot : Option SpotifyRes) (ext : Except Unit ExtractData)
    (aCached vCached : Bool) (fetch : Except Unit Unit)
    (aLines vLines : List String) (aCode vCode : Int) : Env :=
  ⟨640, 360, spot, ext, fun _ => Except.error (), fun _ => aCached, fun _ _ _ => vCached,
   fetch, [], aLines, vLines, aCode, vCode, "raw.mp4", "tmp", "data", "ffmpeg", "sanjuuni",
   false, true, "", "", ""⟩

/-- A plain single-item extraction outcome. -/
def dPlain : ExtractData :=
  ⟨⟨"m", some "T", some 1, some 2, false, "x", "dom"⟩, false, []⟩

/-- A livestream extraction outcome. -/
def dLive : ExtractData :=
  ⟨⟨"m", some "T", some 1, some 2, true, "x", "dom"⟩, false, []⟩

def envLive : Env := mkEnv none (Except.ok dLive) false false (Except.ok ()) [] [] 0 0

/-- C7: a live extraction outcome terminates the pipeline at once — the
whole trace is the single initial status event, so neither cache
predicate is invoked, no fetch and no conversion job runs. -/
theorem C7_live_short_circuit (env : Env) (u : String) (width0 height0 : Option Int)
    (d0 : ExtractData) (d2 : OutcomeCore) (pv : List String)
    (hx : env.extractResult = Except.ok d0)
    (hpl : applyPlaylist (applyGeneric d0) (resolveSpotify env.spotifyResult) = some (d2, pv))
    (hlive : (applyRecovery env d2).is_live = true) :
    download env u width0 height0 =
      ([Effect.sendStatus ("Getting resource information ...")],
       DlRet.ret (OutDict.err ("Livestreams are not supported")) [])
    ∧ (traceOf env u width0 height0).all (fun e => !touchesPipeline e) = true := by
  have h := download_run env u width0 height0 d0 d2 pv hx hpl
  rw [download_tail_live env _ _ _ (applyRecovery env d2) pv hlive] at h
  constructor
  · rw [h]
  · simp only [traceOf, h]
    rfl

/-- Witness for C7: a concrete livestream environment. -/
theorem C7_live_short_circuit_witness :
    download envLive "u" none none =
      ([Effect.sendStatus ("Getting resource information ...")],
       DlRet.ret (OutDict.err ("Livestreams are not supported")) [])
    ∧ (traceOf envLive "u" none none).all (fun e => !touchesPipeline e) = true :=
  C7_live_short_circuit envLive "u" none none dLive dLive.core []
    rfl (by decide) (by decide)

/-- C3 counterexample: on a livestream outcome the code returns the error
outcome with an empty artifact list but emits no Error event to the
status sink at all (the claim requires a single Error event for every
fatal end, livestream included). -/
theorem C3_counterexample :
    retOf envLive "u" none none =
      DlRet.ret (OutDict.err ("Livestreams are not supported")) []
    ∧ (traceOf envLive "u" none none).all (fun e => !e.isSendError) = true := by
  constructor
  · decide
  · decide

/-- C3 (amended): extraction exhaustion and raw-media fetch failure each
emit exactly one Error event and return an error outcome with no
artifacts; a livestream outcome also returns the error outcome with no
artifacts but emits no Error event at all. -/
theorem C3_amended_fatal_outcomes (env : Env) (u : String) (width0 height0 : Option Int) :
    (env.extractResult = Except.error () →
      download env u width0 height0 =
        ([Effect.sendStatus ("Getting resource information ..."),
          Effect.sendError ("Failed to extract media info")],
         DlRet.ret (OutDict.err ("Extractor failed")) []))
    ∧ (∀ (d0 : ExtractData) (d2 : OutcomeCore) (pv : List String),
        env.extractResult = Except.ok d0 →
        applyPlaylist (applyGeneric d0) (resolveSpotify env.spotifyResult) = some (d2, pv) →
        (applyRecovery env d2).is_live = false →
        env.fetchResult = Except.error () →
        need_fetch env (width0.isSome && height0.isSome)
          (effDims env width0 height0).1 (effDims env width0 height0).2
          (applyRecovery env d2).id = true →
        retOf env u width0 height0 = DlRet.ret (OutDict.err ("Download failure")) []
        ∧ ((traceOf env u width0 height0).filter Effect.isSendError).length = 1)
    ∧ (∀ (d0 : ExtractData) (d2 : OutcomeCore) (pv : List String),
        env.extractResult = Except.ok d0 →
        applyPlaylist (applyGeneric d0) (resolveSpotify env.spotifyResult) = some (d2, pv) →
        (applyRecovery env d2).is_live = true →
        retOf env u width0 height0 =
          DlRet.ret (OutDict.err ("Livestreams are not supported")) []
        ∧ ((traceOf env u width0 height0).filter Effect.isSendError).length = 0) := by
  refine ⟨?_, ?_, ?_⟩
  · intro hx
    exact download_extract_fail env u width0 height0 hx
  · intro d0 d2 pv hx hpl hnl hfetch hnf
    have h := download_run env u width0 height0 d0 d2 pv hx hpl
    rw [download_tail_fetch_fail env _ _ _ (applyRecovery env d2) pv hnl hfetch hnf] at h
    constructor
    · simp only [retOf, h]
    · simp only [traceOf, h]
      simp [List.filter_append, Effect.isSendError, filter_sendError_map_status]
  · intro d0 d2 pv hx hpl hlive
    have h := download_run env u width0 height0 d0 d2 pv hx hpl
    rw [download_tail_live env _ _ _ (applyRecovery env d2) pv hlive] at h
    constructor
    · simp only [retOf, h]
    · simp only [traceOf, h]
      rfl

def envExFail : Env := mkEnv none (Except.error ()) false false (Except.ok ()) [] [] 0 0

def envFetchFail : Env :=
  mkEnv none (Except.ok dPlain) false false (Except.error ()) [] [] 0 0

/-- Witness for C3 (amended) at concrete environments for all three fatal
paths. -/
theorem C3_amended_fatal_outcomes_witness :
    download envExFail "u" none none =
      ([Effect.sendStatus ("Getting resource information ..."),
        Effect.sendError ("Failed to extract media info")],
       DlRet.ret (OutDict.err ("Extractor failed")) [])
    ∧ (retOf envFetchFail "u" none none = DlRet.ret (OutDict.err ("Download failure")) []
       ∧ ((traceOf envFetchFail "u" none none).filter Effect.isSendError).length = 1)
    ∧ (retOf envLive "u" none none =
        DlRet.ret (OutDict.err ("Livestreams are not supported")) []
       ∧ ((traceOf envLive "u" none none).filter Effect.isSendError).length = 0) :=
  ⟨(C3_amended_fatal_outcomes envExFail "u" none none).1 rfl,
   (C3_amended_fatal_outcomes envFetchFail "u" none none).2.1 dPlain dPlain.core []
     rfl (by decide) (by decide) rfl (by decide),
   (C3_amended_fatal_outcomes envLive "u" none none).2.2 dLive dLive.core []
     rfl (by decide) (by decide)⟩

/-- C9: a winning outcome whose extractor is `"generic"` has its media id
rewritten to the fixed prefix `"g"` ++ source domain ++ original id; the
returned media dictionary and the audio artifact name use the rewritten
id. -/
theorem C9_generic_id_rewrite (env : Env) (u : String) (width0 height0 : Option Int)
    (d0 : ExtractData)
    (hx : env.extractResult = Except.ok d0)
    (hgen : d0.core.extractor = "generic")
    (hnp : d0.is_playlist = false)
    (hnl : d0.core.is_live = false)
    (hfetch : env.fetchResult = Except.ok ()) :
    ∃ q fs,
      retOf env u width0 height0 =
        DlRet.ret
          (OutDict.media ("g" ++ d0.core.webpage_url_domain ++ d0.core.id)
            d0.core.title d0.core.like_count d0.core.view_count q) fs
      ∧ fs.head? = some (get_audio_name ("g" ++ d0.core.webpage_url_domain ++ d0.core.id)) := by
  have hg : applyGeneric d0 =
      ⟨⟨"g" ++ d0.core.webpage_url_domain ++ d0.core.id, d0.core.title, d0.core.like_count,
        d0.core.view_count, d0.core.is_live, d0.core.extractor, d0.core.webpage_url_domain⟩,
       d0.is_playlist, d0.entries⟩ := by
    simp [applyGeneric, hgen]
  have hpl : applyPlaylist (applyGeneric d0) (resolveSpotify env.spotifyResult) =
      some (⟨"g" ++ d0.core.webpage_url_domain ++ d0.core.id, d0.core.title, d0.core.like_count,
        d0.core.view_count, d0.core.is_live, d0.core.extractor, d0.core.webpage_url_domain⟩,
        resolveSpotify env.spotifyResult) := by
    rw [hg]
    simp [applyPlaylist, hnp]
  have hrec : applyRecovery env
      ⟨"g" ++ d0.core.webpage_url_domain ++ d0.core.id, d0.core.title, d0.core.like_count,
       d0.core.view_count, d0.core.is_live, d0.core.extractor, d0.core.webpage_url_domain⟩ =
      ⟨"g" ++ d0.core.webpage_url_domain ++ d0.core.id, d0.core.title, d0.core.like_count,
       d0.core.view_count, d0.core.is_live, d0.core.extractor, d0.core.webpage_url_domain⟩ := by
    have hne : (d0.core.extractor == "youtube") = false := by
      rw [hgen]
      decide
    simp [applyRecovery, hne]
  have h := download_run env u width0 height0 d0
    ⟨"g" ++ d0.core.webpage_url_domain ++ d0.core.id, d0.core.title, d0.core.like_count,
     d0.core.view_count, d0.core.is_live, d0.core.extractor, d0.core.webpage_url_domain⟩
    (resolveSpotify env.spotifyResult) hx hpl
  rw [hrec] at h
  rw [download_tail_ok env (width0.isSome && height0.isSome)
    (effDims env width0 height0).1 (effDims env width0 height0).2
    ⟨"g" ++ d0.core.webpage_url_domain ++ d0.core.id, d0.core.title, d0.core.like_count,
     d0.core.view_count, d0.core.is_live, d0.core.extractor, d0.core.webpage_url_domain⟩
    (resolveSpotify env.spotifyResult) hnl hfetch] at h
  refine ⟨if (resolveSpotify env.spotifyResult).isEmpty then none
            else some (resolveSpotify env.spotifyResult),
          [get_audio_name ("g" ++ d0.core.webpage_url_domain ++ d0.core.id)]
            ++ (if (width0.isSome && height0.isSome) = true then
                  [get_video_name ("g" ++ d0.core.webpage_url_domain ++ d0.core.id)
                    ((effDims env width0 height0).1.getD 0)
                    ((effDims env width0 height0).2.getD 0)]
                else []), ?_, ?_⟩
  · simp only [retOf, h]
  · cases hv : (width0.isSome && height0.isSome) <;> simp [hv]

/-- The spec's generic-extractor example: id `"abc"`, domain
`"example.com"`. -/
def dGen : ExtractData :=
  ⟨⟨"abc", some "T", some 1, some 2, false, "generic", "example.com"⟩, false, []⟩

def envGen : Env := mkEnv none (Except.ok dGen) false false (Except.ok ()) [] [] 0 0

/-- Witness for C9 at the spec's example inputs. -/
theorem C9_generic_id_rewrite_witness :
    ∃ q fs,
      retOf envGen "u" none none =
        DlRet.ret
          (OutDict.media ("g" ++ "example.com" ++ "abc") (some "T") (some 1) (some 2) q) fs
      ∧ fs.head? = some (get_audio_name ("g" ++ "example.com" ++ "abc")) :=
  C9_generic_id_rewrite envGen "u" none none dGen rfl rfl rfl rfl rfl

lemma fetch_not_mem_download_audio (env : Env) (mid : String) :
    Effect.fetch ∉ download_audio env mid := by
  unfold download_audio
  cases hc : (env.audioCode != 0) <;> simp [hc, List.mem_append, List.mem_map]

lemma fetch_not_mem_download_video (env : Env) (mid : String) (w h : Int) :
    Effect.fetch ∉ download_video env mid w h := by
  unfold download_video
  cases hc : (env.videoCode != 0) <;> simp [hc, List.mem_append, List.mem_flatMap]

lemma count_fetch_map_status (msgs : List String) :
    (msgs.map Effect.sendStatus).count Effect.fetch = 0 :=
  List.count_eq_zero.mpr (by simp)

lemma count_fetch_tail (env : Env) (iv : Bool) (w h : Option Int)
    (d : OutcomeCore) (pv : List String) (hnl : d.is_live = false)
    (hfetch : env.fetchResult = Except.ok ()) :
    (download_tail env iv w h d pv).1.count Effect.fetch =
      if need_fetch env iv w h d.id then 1 else 0 := by
  rw [download_tail_ok env iv w h d pv hnl hfetch]
  cases hnf : need_fetch env iv w h d.id <;>
    cases hA : env.audioCached d.id <;>
      cases hV : env.videoCached d.id w h <;>
        cases hIV : iv <;>
          simp [hnf, hA, hV, hIV, List.count_append, List.count_cons,
            count_fetch_map_status,
            List.count_eq_zero.mpr (fetch_not_mem_download_audio env d.id),
            List.count_eq_zero.mpr
              (fetch_not_mem_download_video env d.id (w.getD 0) (h.getD 0))]

/-- C5: a raw-media fetch happens exactly when `need_fetch` holds (and is
then a single fetch); when both target artifacts are already cached, no
fetch and no encoder subprocess is invoked and the final media outcome is
still returned with the extracted metadata. -/
theorem C5_fetch_exactly_when_needed (env : Env) (u : String) (width0 height0 : Option Int)
    (d0 : ExtractData) (d2 : OutcomeCore) (pv : List String)
    (hx : env.extractResult = Except.ok d0)
    (hpl : applyPlaylist (applyGeneric d0) (resolveSpotify env.spotifyResult) = some (d2, pv))
    (hnl : (applyRecovery env d2).is_live = false)
    (hfetch : env.fetchResult = Except.ok ()) :
    ((traceOf env u width0 height0).count Effect.fetch =
      if need_fetch env (width0.isSome && height0.isSome)
          (effDims env width0 height0).1 (effDims env width0 height0).2
          (applyRecovery env d2).id then 1 else 0)
    ∧ (env.audioCached (applyRecovery env d2).id = true →
       ((width0.isSome && height0.isSome) = true →
         env.videoCached (applyRecovery env d2).id
           (effDims env width0 height0).1 (effDims env width0 height0).2 = true) →
       (traceOf env u width0 height0).all (fun e => !e.isFetch && !e.isRunEncoder) = true
       ∧ retOf env u width0 height0 =
           DlRet.ret
             (OutDict.media (applyRecovery env d2).id (applyRecovery env d2).title
               (applyRecovery env d2).like_count (applyRecovery env d2).view_count
               (if pv.isEmpty then none else some pv))
             ([get_audio_name (applyRecovery env d2).id]
               ++ (if (width0.isSome && height0.isSome) = true then
                     [get_video_name (applyRecovery env d2).id
                       ((effDims env width0 height0).1.getD 0)
                       ((effDims env width0 height0).2.getD 0)]
                   else []))) := by
  have h0 := download_run env u width0 height0 d0 d2 pv hx hpl
  have h := h0
  rw [download_tail_ok env (width0.isSome && height0.isSome)
    (effDims env width0 height0).1 (effDims env width0 height0).2
    (applyRecovery env d2) pv hnl hfetch] at h
  constructor
  · simp only [traceOf, h0]
    rw [List.count_cons]
    rw [count_fetch_tail env (width0.isSome && height0.isSome)
      (effDims env width0 height0).1 (effDims env width0 height0).2
      (applyRecovery env d2) pv hnl hfetch]
    simp
  · intro haud hvid
    have hnf : need_fetch env (width0.isSome && height0.isSome)
        (effDims env width0 height0).1 (effDims env width0 height0).2
        (applyRecovery env d2).id = false := by
      unfold need_fetch
      rw [haud]
      cases hiv : (width0.isSome && height0.isSome) with
      | false => simp
      | true => simp [hvid hiv]
    constructor
    · simp only [traceOf, h]
      simp [hnf, haud, Effect.isFetch, Effect.isRunEncoder]
      intro x hw hh hvc _
      rw [hvid (by simp [hw, hh])] at hvc
      simp at hvc
    · simp only [retOf, h]

/-- Environment where both target artifacts are already cached. -/
def envCached : Env := mkEnv none (Except.ok dPlain) true true (Except.ok ()) [] [] 0 0

/-- Witness for C5: both artifacts cached, video requested at 100x100. -/
theorem C5_fetch_exactly_when_needed_witness :
    (traceOf envCached "u" (some 100) (some 100)).count Effect.fetch = 0
    ∧ ((traceOf envCached "u" (some 100) (some 100)).all
         (fun e => !e.isFetch && !e.isRunEncoder) = true
       ∧ retOf envCached "u" (some 100) (some 100) =
           DlRet.ret (OutDict.media "m" (some "T") (some 1) (some 2) none)
             ["m.dfpwm", "m_100x100.32vid"]) := by
  have h := C5_fetch_exactly_when_needed envCached "u" (some 100) (some 100)
    dPlain dPlain.core [] rfl (by decide) (by decide) rfl
  exact ⟨h.1, h.2 (by decide) (fun _ => by decide)⟩

/-- C2: a non-zero encoder exit code produces the kind-specific Error
event but aborts neither the sibling conversion nor the request: both
encoder invocations still appear in the trace and the returned media
outcome carries the full expected filename list (audio always, video when
requested), independent of the exit codes. -/
theorem C2_conversion_failure_isolated (env : Env) (u : String) (width0 height0 : Option Int)
    (d0 : ExtractData) (d2 : OutcomeCore) (pv : List String)
    (hx : env.extractResult = Except.ok d0)
    (hpl : applyPlaylist (applyGeneric d0) (resolveSpotify env.spotifyResult) = some (d2, pv))
    (hnl : (applyRecovery env d2).is_live = false)
    (hfetch : env.fetchResult = Except.ok ())
    (haud : env.audioCached (applyRecovery env d2).id = false) :
    (env.audioCode ≠ 0 →
      Effect.sendError ("Failed to convert audio!") ∈ traceOf env u width0 height0)
    ∧ ((width0.isSome && height0.isSome) = true →
        env.videoCached (applyRecovery env d2).id
          (effDims env width0 height0).1 (effDims env width0 height0).2 = false →
        env.videoCode ≠ 0 →
        Effect.sendError ("Failed to convert video!") ∈ traceOf env u width0 height0)
    ∧ Effect.runEncoder (ffmpegArgs env (applyRecovery env d2).id) ∈ traceOf env u width0 height0
    ∧ ((width0.isSome && height0.isSome) = true →
        env.videoCached (applyRecovery env d2).id
          (effDims env width0 height0).1 (effDims env width0 height0).2 = false →
        Effect.runEncoder (sanjuuniArgs env (applyRecovery env d2).id
          ((effDims env width0 height0).1.getD 0) ((effDims env width0 height0).2.getD 0))
          ∈ traceOf env u width0 height0)
    ∧ retOf env u width0 height0 =
        DlRet.ret
          (OutDict.media (applyRecovery env d2).id (applyRecovery env d2).title
            (applyRecovery env d2).like_count (applyRecovery env d2).view_count
            (if pv.isEmpty then none else some pv))
          ([get_audio_name (applyRecovery env d2).id]
            ++ (if (width0.isSome && height0.isSome) = true then
                  [get_video_name (applyRecovery env d2).id
                    ((effDims env width0 height0).1.getD 0)
                    ((effDims env width0 height0).2.getD 0)]
                else [])) := by
  have h := download_run env u width0 height0 d0 d2 pv hx hpl
  rw [download_tail_ok env (width0.isSome && height0.isSome)
    (effDims env width0 height0).1 (effDims env width0 height0).2
    (applyRecovery env d2) pv hnl hfetch] at h
  refine ⟨?_, ?_, ?_, ?_, ?_⟩
  · intro hac
    simp only [traceOf, h]
    simp [haud, download_audio, bne_iff_ne, hac]
  · intro hiv hvc hvcode
    simp only [traceOf, h]
    simp [hiv, hvc, download_video, bne_iff_ne, hvcode]
  · simp only [traceOf, h]
    simp [haud, download_audio]
  · intro hiv hvc
    simp only [traceOf, h]
    simp [hiv, hvc, download_video]
  · simp only [retOf, h]

/-- Environment where both conversions run and both encoders fail. -/
def envBothFail : Env :=
  mkEnv none (Except.ok dPlain) false false (Except.ok ()) [] [] 1 1

/-- Witness for C2: both encoders exit non-zero, video requested. -/
theorem C2_conversion_failure_isolated_witness :
    Effect.sendError ("Failed to convert audio!") ∈ traceOf envBothFail "u" (some 100) (some 100)
    ∧ Effect.sendError ("Failed to convert video!") ∈ traceOf envBothFail "u" (some 100) (some 100)
    ∧ Effect.runEncoder (ffmpegArgs envBothFail "m") ∈ traceOf envBothFail "u" (some 100) (some 100)
    ∧ Effect.runEncoder (sanjuuniArgs envBothFail "m" 100 100)
        ∈ traceOf envBothFail "u" (some 100) (some 100)
    ∧ retOf envBothFail "u" (some 100) (some 100) =
        DlRet.ret (OutDict.media "m" (some "T") (some 1) (some 2) none)
          ["m.dfpwm", "m_100x100.32vid"] := by
  have h := C2_conversion_failure_isolated envBothFail "u" (some 100) (some 100)
    dPlain dPlain.core [] rfl (by decide) (by decide) rfl rfl
  exact ⟨h.1 (by decide), h.2.1 rfl rfl (by decide), h.2.2.1,
         h.2.2.2.1 rfl rfl, h.2.2.2.2⟩

/-- Environment with nothing cached and a successful fetch. -/
def envPlainOk : Env := mkEnv none (Except.ok dPlain) false false (Except.ok ()) [] [] 0 0

/-- C8 counterexample: with `width = 0, height = 1000` both dimensions
are supplied (so video is requested), but `if width and height:` is falsy
at 0, the clamp is skipped, and the unclamped height 1000 (above the
configured maximum 360) reaches the video cache check and the video
filename. -/
theorem C8_counterexample :
    Effect.cacheCheckVideo "m" (some 0) (some 1000) ∈ traceOf envPlainOk "u" (some 0) (some 1000)
    ∧ Effect.cacheCheckVideo "m" (some 0) (some 360) ∉ traceOf envPlainOk "u" (some 0) (some 1000)
    ∧ retOf envPlainOk "u" (some 0) (some 1000) =
        DlRet.ret (OutDict.media "m" (some "T") (some 1) (some 2) none)
          ["m.dfpwm", "m_0x1000.32vid"]
    ∧ get_video_name "m" 0 1000 ≠
        get_video_name "m" (min 0 envPlainOk.maxWidth) (min 1000 envPlainOk.maxHeight) := by
  refine ⟨by decide, by decide, by decide, by decide⟩

/-- C8 (amended): when both supplied dimensions are non-zero they are
clamped to the configured maximums before every use — the video cache
check, the video encoder invocation and the video filename all see the
clamped pair (profile construction consumes only `is_video`, not the
dimensions); when either supplied dimension is 0 the clamp step is
skipped and the dimensions are used as given. -/
theorem C8_amended_dims_clamped (env : Env) (u : String) (w h : Int)
    (hw : w ≠ 0) (hh : h ≠ 0)
    (d0 : ExtractData) (d2 : OutcomeCore) (pv : List String)
    (hx : env.extractResult = Except.ok d0)
    (hpl : applyPlaylist (applyGeneric d0) (resolveSpotify env.spotifyResult) = some (d2, pv))
    (hnl : (applyRecovery env d2).is_live = false)
    (hfetch : env.fetchResult = Except.ok ()) :
    effDims env (some w) (some h) = (some (min w env.maxWidth), some (min h env.maxHeight))
    ∧ Effect.cacheCheckVideo (applyRecovery env d2).id
        (some (min w env.maxWidth)) (some (min h env.maxHeight))
        ∈ traceOf env u (some w) (some h)
    ∧ (env.videoCached (applyRecovery env d2).id
          (some (min w env.maxWidth)) (some (min h env.maxHeight)) = false →
       Effect.runEncoder (sanjuuniArgs env (applyRecovery env d2).id
         (min w env.maxWidth) (min h env.maxHeight)) ∈ traceOf env u (some w) (some h))
    ∧ ∃ out, retOf env u (some w) (some h) =
        DlRet.ret out
          [get_audio_name (applyRecovery env d2).id,
           get_video_name (applyRecovery env d2).id (min w env.maxWidth) (min h env.maxHeight)] := by
  have hd : effDims env (some w) (some h) =
      (some (min w env.maxWidth), some (min h env.maxHeight)) := by
    simp [effDims, truthyDim, hw, hh, cap_width_and_height]
  have hd1 : (effDims env (some w) (some h)).1 = some (min w env.maxWidth) := by rw [hd]
  have hd2 : (effDims env (some w) (some h)).2 = some (min h env.maxHeight) := by rw [hd]
  have h0 := download_run env u (some w) (some h) d0 d2 pv hx hpl
  rw [hd1, hd2] at h0
  rw [download_tail_ok env ((some w).isSome && (some h).isSome)
    (some (min w env.maxWidth)) (some (min h env.maxHeight))
    (applyRecovery env d2) pv hnl hfetch] at h0
  refine ⟨hd, ?_, ?_, ?_⟩
  · simp only [traceOf, h0]
    simp
  · intro hvc
    simp only [traceOf, h0]
    simp [hvc, download_video]
  · exact ⟨OutDict.media (applyRecovery env d2).id (applyRecovery env d2).title
      (applyRecovery env d2).like_count (applyRecovery env d2).view_count
      (if pv.isEmpty then none else some pv), by simp only [retOf, h0]; simp⟩

/-- Witness for C8 (amended): the spec scenario 1000x1000 with maximums
640x360. -/
theorem C8_amended_dims_clamped_witness :
    effDims envPlainOk (some 1000) (some 1000) = (some 640, some 360)
    ∧ Effect.cacheCheckVideo "m" (some 640) (some 360)
        ∈ traceOf envPlainOk "u" (some 1000) (some 1000)
    ∧ Effect.runEncoder (sanjuuniArgs envPlainOk "m" 640 360)
        ∈ traceOf envPlainOk "u" (some 1000) (some 1000)
    ∧ ∃ out, retOf envPlainOk "u" (some 1000) (some 1000) =
        DlRet.ret out ["m.dfpwm", "m_640x360.32vid"] := by
  have h := C8_amended_dims_clamped envPlainOk "u" 1000 1000 (by decide) (by decide)
    dPlain dPlain.core [] rfl (by decide) (by decide) rfl
  exact ⟨h.1, h.2.1, h.2.2.1 rfl, h.2.2.2⟩

lemma applyGeneric_is_playlist (d : ExtractData) :
    (applyGeneric d).is_playlist = d.is_playlist := by
  unfold applyGeneric
  split <;> rfl

lemma applyGeneric_entries (d : ExtractData) :
    (applyGeneric d).entries = d.entries := by
  unfold applyGeneric
  split <;> rfl

lemma applyPlaylist_playlist (d : ExtractData) (pv : List String)
    (hpl : d.is_playlist = true) (e : OutcomeCore) (es : List OutcomeCore)
    (hent : d.entries = e :: es) :
    applyPlaylist (applyGeneric d) pv =
      some (e, (pv ++ (e :: es).map OutcomeCore.id).drop 1) := by
  unfold applyPlaylist
  rw [applyGeneric_is_playlist, applyGeneric_entries, hpl, hent]
  simp

/-- A playlist outcome with two entries, ids `"idA"` and `"idB"`. -/
def dPl : ExtractData :=
  ⟨⟨"top", none, none, none, false, "x", "dom"⟩, true,
   [⟨"idA", some "tA", some 1, some 2, false, "x", "dom"⟩,
    ⟨"idB", none, none, none, false, "x", "dom"⟩]⟩

/-- Spotify queue `["p0","p1","p2"]` combined with playlist `dPl`. -/
def envSpotPl : Env :=
  mkEnv (some (SpotifyRes.multi ["p0", "p1", "p2"])) (Except.ok dPl) true true
    (Except.ok ()) [] [] 0 0

/-- C4 counterexample: with a non-empty Spotify queue and a playlist
outcome, the primary item's own id `"idA"` remains in the returned
continuation queue (the first Spotify entry is dropped instead). -/
theorem C4_counterexample :
    retOf envSpotPl "u" none none =
      DlRet.ret (OutDict.media "idA" (some "tA") (some 1) (some 2)
        (some ["p2", "idA", "idB"])) ["idA.dfpwm"]
    ∧ "idA" ∈ ["p2", "idA", "idB"] := by
  refine ⟨by decide, by decide⟩

/-- C4 (amended): when the Spotify-resolved queue is empty and the
winning outcome is a playlist with pairwise-distinct entry ids, the
returned continuation queue (the remaining entry ids) never contains the
primary item's own id; with a non-empty Spotify queue the primary
playlist entry's id can remain in the queue. -/
theorem C4_amended_queue_excludes_primary (env : Env) (u : String)
    (width0 height0 : Option Int) (d0 : ExtractData)
    (e : OutcomeCore) (es : List OutcomeCore)
    (hspot : resolveSpotify env.spotifyResult = [])
    (hx : env.extractResult = Except.ok d0)
    (hpl : d0.is_playlist = true)
    (hent : d0.entries = e :: es)
    (hnodup : ((e :: es).map OutcomeCore.id).Nodup)
    (hrec : applyRecovery env e = e)
    (hnl : e.is_live = false)
    (hfetch : env.fetchResult = Except.ok ()) :
    ∃ fs,
      retOf env u width0 height0 =
        DlRet.ret
          (OutDict.media e.id e.title e.like_count e.view_count
            (if (es.map OutcomeCore.id).isEmpty then none
             else some (es.map OutcomeCore.id))) fs
      ∧ e.id ∉ es.map OutcomeCore.id := by
  have hq : applyPlaylist (applyGeneric d0) (resolveSpotify env.spotifyResult) =
      some (e, es.map OutcomeCore.id) := by
    rw [applyPlaylist_playlist d0 (resolveSpotify env.spotifyResult) hpl e es hent, hspot]
    simp
  have h0 := download_run env u width0 height0 d0 e (es.map OutcomeCore.id) hx hq
  rw [hrec] at h0
  rw [download_tail_ok env (width0.isSome && height0.isSome)
    (effDims env width0 height0).1 (effDims env width0 height0).2
    e (es.map OutcomeCore.id) hnl hfetch] at h0
  refine ⟨[get_audio_name e.id]
      ++ (if (width0.isSome && height0.isSome) = true then
            [get_video_name e.id ((effDims env width0 height0).1.getD 0)
              ((effDims env width0 height0).2.getD 0)]
          else []), ?_, ?_⟩
  · simp only [retOf, h0]
  · have hn : (e.id :: es.map OutcomeCore.id).Nodup := by simpa using hnodup
    exact (List.nodup_cons.mp hn).1

/-- Witness for C4 (amended): playlist `dPl` with no Spotify queue. -/
def envPlOnly : Env :=
  mkEnv none (Except.ok dPl) true true (Except.ok ()) [] [] 0 0

theorem C4_amended_queue_excludes_primary_witness :
    ∃ fs,
      retOf envPlOnly "u" none none =
        DlRet.ret (OutDict.media "idA" (some "tA") (some 1) (some 2) (some ["idB"])) fs
      ∧ "idA" ∉ ["idB"] :=
  C4_amended_queue_excludes_primary envPlOnly "u" none none dPl
    ⟨"idA", some "tA", some 1, some 2, false, "x", "dom"⟩
    [⟨"idB", none, none, none, false, "x", "dom"⟩]
    rfl rfl rfl rfl (by decide) (by decide) (by decide) rfl

/-- C10: with a Spotify-resolved queue `[S1, S2, ...]` already present
and a playlist outcome with entries `[A, B, ...]`, the returned queue is
the combined list minus its first element — `[S2, ..., A, B, ...]` — so
the first remaining Spotify entry S1 is silently dropped while the
primary item's own id A stays in the queue. -/
theorem C10_spotify_playlist_queue (env : Env) (u : String)
    (width0 height0 : Option Int) (d0 : ExtractData)
    (p0 s1 : String) (srest : List String)
    (e : OutcomeCore) (es : List OutcomeCore)
    (hspot : env.spotifyResult = some (SpotifyRes.multi (p0 :: s1 :: srest)))
    (hx : env.extractResult = Except.ok d0)
    (hpl : d0.is_playlist = true)
    (hent : d0.entries = e :: es)
    (hrec : applyRecovery env e = e)
    (hnl : e.is_live = false)
    (hfetch : env.fetchResult = Except.ok ()) :
    ∃ fs,
      retOf env u width0 height0 =
        DlRet.ret
          (OutDict.media e.id e.title e.like_count e.view_count
            (some (srest ++ e.id :: es.map OutcomeCore.id))) fs
      ∧ e.id ∈ srest ++ e.id :: es.map OutcomeCore.id := by
  have hq : applyPlaylist (applyGeneric d0) (resolveSpotify env.spotifyResult) =
      some (e, srest ++ e.id :: es.map OutcomeCore.id) := by
    rw [applyPlaylist_playlist d0 (resolveSpotify env.spotifyResult) hpl e es hent, hspot]
    simp [resolveSpotify]
  have h0 := download_run env u width0 height0 d0 e
    (srest ++ e.id :: es.map OutcomeCore.id) hx hq
  rw [hrec] at h0
  rw [download_tail_ok env (width0.isSome && height0.isSome)
    (effDims env width0 height0).1 (effDims env width0 height0).2
    e (srest ++ e.id :: es.map OutcomeCore.id) hnl hfetch] at h0
  have hne : (srest ++ e.id :: es.map OutcomeCore.id).isEmpty = false := by
    cases srest <;> simp
  refine ⟨[get_audio_name e.id]
      ++ (if (width0.isSome && height0.isSome) = true then
            [get_video_name e.id ((effDims env width0 height0).1.getD 0)
              ((effDims env width0 height0).2.getD 0)]
          else []), ?_, ?_⟩
  · simp only [retOf, h0, hne]
    simp
  · exact List.mem_append_right _ (List.mem_cons_self _ _)

/-- Witness for C10: Spotify queue `["p1","p2"]` (after the consumed
head `"p0"`) plus playlist entries `["idA","idB"]` yields the queue
`["p2","idA","idB"]` containing the primary id `"idA"`. -/
theorem C10_spotify_playlist_queue_witness :
    ∃ fs,
      retOf envSpotPl "u" none none =
        DlRet.ret
          (OutDict.media "idA" (some "tA") (some 1) (some 2)
            (some ["p2", "idA", "idB"])) fs
      ∧ "idA" ∈ ("p2" :: "idA" :: ["idB"]) :=
  C10_spotify_playlist_queue envSpotPl "u" none none dPl "p0" "p1" ["p2"]
    ⟨"idA", some "tA", some 1, some 2, false, "x", "dom"⟩
    [⟨"idB", none, none, none, false, "x", "dom"⟩]
    rfl rfl rfl rfl (by decide) (by decide) rfl

/-- Environment whose encoders each produce one output line. -/
def envConv : Env :=
  mkEnv none (Except.ok dPlain) false false (Except.ok ()) ["aline"] ["vline"] 0 0

/-- C6 counterexample: the audio encoder's output line is logged with the
ffmpeg tag but never forwarded to the sink as a Status event, and the
video encoder's output line is forwarded as a bare Status event without
any kind-identifying tag. -/
theorem C6_counterexample :
    Effect.logDebug ("[FFmpeg]" ++ "aline") ∈ traceOf envConv "u" none none
    ∧ Effect.sendStatus "aline" ∉ traceOf envConv "u" none none
    ∧ Effect.sendStatus "vline" ∈ traceOf envConv "u" (some 100) (some 100)
    ∧ Effect.sendStatus ("[Sanjuuni]" ++ "vline") ∉ traceOf envConv "u" (some 100) (some 100) := by
  refine ⟨by decide, by decide, by decide, by decide⟩

/-- C6 (amended): each video-encoder output line is forwarded to the sink
as a Status event carrying the bare line, while the kind-identifying tag
appears only on the debug-log copy; audio-encoder output lines are only
logged (tagged) and never forwarded — the audio job's sole Status event
is its fixed conversion announcement. -/
theorem C6_amended_line_forwarding (env : Env) (media_id : String) (w h : Int)
    (line : String) :
    (line ∈ env.videoLines →
      Effect.sendStatus line ∈ download_video env media_id w h
      ∧ Effect.logDebug (videoTag env ++ line) ∈ download_video env media_id w h)
    ∧ (line ∈ env.audioLines →
      Effect.logDebug (audioTag env ++ line) ∈ download_audio env media_id)
    ∧ (∀ m, Effect.sendStatus m ∈ download_audio env media_id →
        m = "Converting audio to dfpwm ...") := by
  refine ⟨?_, ?_, ?_⟩
  · intro hl
    constructor
    · unfold download_video
      simp [List.mem_flatMap]
      exact Or.inr hl
    · unfold download_video
      simp [List.mem_flatMap]
      exact ⟨line, hl, rfl⟩
  · intro hl
    unfold download_audio
    simp [List.mem_map]
    exact ⟨line, hl, rfl⟩
  · intro m hm
    unfold download_audio at hm
    cases hc : (env.audioCode != 0) <;> rw [hc] at hm <;>
      simp [List.mem_map] at hm <;> tauto

/-- Witness for C6 (amended) at the concrete `envConv`. -/
theorem C6_amended_line_forwarding_witness :
    (Effect.sendStatus "vline" ∈ download_video envConv "m" 640 360
     ∧ Effect.logDebug (videoTag envConv ++ "vline") ∈ download_video envConv "m" 640 360)
    ∧ Effect.logDebug (audioTag envConv ++ "aline") ∈ download_audio envConv "m"
    ∧ "Converting audio to dfpwm ..." = "Converting audio to dfpwm ..." := by
  have h1 := C6_amended_line_forwarding envConv "m" 640 360 "vline"
  have h2 := C6_amended_line_forwarding envConv "m" 640 360 "aline"
  exact ⟨h1.1 (by decide), h2.2.1 (by decide),
         h2.2.2 "Converting audio to dfpwm ..." (by decide)⟩
